import Mathlib

/-!
Verification of the stream-processing core of an AWS real-time streaming
pipeline (Kinesis → Lambda → S3).

The embedding models src/lambda/kinesis_processor.py.  Side effects are made
explicit:
* `datetime.utcnow()`, `time.time()`, `uuid.uuid4()` and the S3 outcome are
  supplied by an environment record (`RecordEnv`, `LambdaEnv`);
* base64-decoding plus `json.loads` of a payload string is the environment
  function `decode` (its internals are outside the processing core);
* an S3 `put_object` is recorded as an `S3Write` value; the JSON body is kept
  at the level of JSON values (the envelope built by `_serialize_record`);
* a raised Python exception is an `Except.error` carrying `str(e)`.
-/

/-- JSON values, the result of `json.loads` on a record payload. -/
inductive Json where
  | null : Json
  | bool (b : Bool) : Json
  | num (q : ℚ) : Json
  | str (s : String) : Json
  | arr (xs : List Json) : Json
  | obj (kvs : List (String × Json)) : Json

/-- A UTC wall-clock instant as `datetime.utcnow()` returns it.  A Python
`datetime` always satisfies `1 ≤ year ≤ 9999`, `1 ≤ month ≤ 12`,
`1 ≤ day ≤ 31`, `hour ≤ 23`, `minute ≤ 59`, `second ≤ 59`,
`microsecond ≤ 999999`; theorems take these bounds as hypotheses where they
matter. -/
structure DateTime where
  year : ℕ
  month : ℕ
  day : ℕ
  hour : ℕ
  minute : ℕ
  second : ℕ
  microsecond : ℕ

/-- The decimal digit character for `d < 10`. -/
def digitChar (d : ℕ) : Char := Char.ofNat (48 + d)

/-- The last `w` decimal digits of `n`, zero-padded to exactly width `w`;
for `n < 10 ^ w` this is the zero-padded `w`-digit rendering of `n`, which is
what CPython's `strftime` directives `%Y` (w=4), `%m`, `%d`, `%H`, `%M`, `%S`
(w=2) and `%f` (w=6) produce on the `datetime` domain. -/
def padDigits : ℕ → ℕ → List Char
  | 0, _ => []
  | w + 1, n => padDigits w (n / 10) ++ [digitChar (n % 10)]

/-- `decStr w n` is `padDigits w n` as a string. -/
def decStr (w n : ℕ) : String := String.mk (padDigits w n)

/-- Numeric value of a list of decimal digit characters (most significant
first). -/
def digitsToNat (cs : List Char) : ℕ := cs.foldl (fun a c => a * 10 + (c.toNat - 48)) 0

/-- `strftime('%Y%m%d_%H%M%S')`: the compact timestamp used in the object
file name. -/
def compactTs (t : DateTime) : String :=
  decStr 4 t.year ++ decStr 2 t.month ++ decStr 2 t.day ++ "_" ++
  decStr 2 t.hour ++ decStr 2 t.minute ++ decStr 2 t.second

/-- `datetime.isoformat()`: ISO-8601 rendering, microseconds omitted when
zero, exactly as CPython prints it. -/
def isoformat (t : DateTime) : String :=
  decStr 4 t.year ++ "-" ++ decStr 2 t.month ++ "-" ++ decStr 2 t.day ++ "T" ++
  decStr 2 t.hour ++ ":" ++ decStr 2 t.minute ++ ":" ++ decStr 2 t.second ++
  (if t.microsecond = 0 then "" else "." ++ decStr 6 t.microsecond)

/-- `leadsWith pat s` holds when `pat` is an initial segment of `s`
(character-by-character comparison, as Python substring matching does). -/
def leadsWith : List Char → List Char → Bool
  | [], _ => true
  | _ :: _, [] => false
  | a :: ps, b :: ss => a == b && leadsWith ps ss

/-- `hasOcc pat s` holds when `pat` occurs as a contiguous run inside `s`. -/
def hasOcc (pat : List Char) : List Char → Bool
  | [] => leadsWith pat []
  | c :: rest => leadsWith pat (c :: rest) || hasOcc pat rest

/-- Python `str.replace` on character lists: replace every non-overlapping
occurrence of `pat`, scanning left to right.  (For the empty pattern Python
interleaves the replacement; the pattern used by the processor,
`s3://<bucket>/`, is never empty, so the empty-pattern case is immaterial and
modelled as the identity.) -/
def replChars (s pat repl : List Char) : List Char :=
  match s with
  | [] => []
  | c :: rest =>
    if h : pat ≠ [] ∧ leadsWith pat (c :: rest) = true then
      repl ++ replChars ((c :: rest).drop pat.length) pat repl
    else
      c :: replChars rest pat repl
termination_by s.length
decreasing_by
  · simp only [List.length_drop, List.length_cons]
    have : pat.length ≠ 0 := fun hz => h.1 (List.eq_nil_of_length_eq_zero hz)
    omega
  · simp

/-- Python `str.replace` on strings. -/
def strReplace (s pat repl : String) : String :=
  String.mk (replChars s.data pat.data repl.data)

/-- `str(KeyError('data'))`, the exception message raised by
`record['data']` when the key is absent. -/
def keyErrorMsg : String := "\x27data\x27"

/-- A lowercase hexadecimal digit, the alphabet of `uuid.uuid4().hex`. -/
def isHexLower (c : Char) : Bool := c.isDigit || ('a' ≤ c && c ≤ 'f')

/-- An incoming Kinesis record as the handler receives it: the three
dictionary fields the code reads, each possibly absent. -/
structure IncomingRecord where
  sequenceNumber : Option String
  partitionKey : Option String
  data : Option String

/-- `ProcessingResult`: result of processing a single record
(`@dataclass` in the source, same fields and defaults). -/
structure ProcessingResult where
  record_id : String
  success : Bool
  partition_key : String
  output_path : Option String := none
  error_message : Option String := none
  processing_time_ms : ℚ := 0

/-- `StreamProcessor` state: constructor arguments plus the mutable
counters and start time set in `__init__`.  `pre` models the `prefix`
attribute (`prefix` is reserved in Lean). -/
structure StreamProcessor where
  bucket_name : String
  pre : String
  records_processed : ℕ
  records_failed : ℕ
  start_time : ℚ

/-- Effects consumed while processing one record: the payload decoder
(base64 + UTF-8 + `json.loads`; `.error` carries `str(e)` of the raised
exception), the two `utcnow()` readings, the two `uuid4()` draws, the
outcome of `put_object`, and the measured elapsed milliseconds. -/
structure RecordEnv where
  decode : String → Except String Json
  nowSer : DateTime
  now : DateTime
  uuidFull : String
  uuidHex8 : String
  s3Result : Except String Unit
  elapsedMs : ℚ

/-- One durable `put_object` call: bucket, key, body (the JSON envelope that
`json.dumps` would serialize), content type, and the two metadata entries. -/
structure S3Write where
  bucket : String
  key : String
  body : Json
  contentType : String
  meta_partition_key : String
  meta_sequence_number : String

/-- `StreamProcessor._get_partition_path`: `prefix` followed by
`year=YYYY/month=MM/day=DD/hour=HH/` rendered by `strftime`. -/
def get_partition_path (p : StreamProcessor) (t : DateTime) : String :=
  p.pre ++
  ("year=" ++ decStr 4 t.year ++ "/") ++
  ("month=" ++ decStr 2 t.month ++ "/") ++
  ("day=" ++ decStr 2 t.day ++ "/") ++
  ("hour=" ++ decStr 2 t.hour ++ "/")

/-- `StreamProcessor._serialize_record`: wrap the decoded payload in the
envelope with ingestion timestamp and pipeline version. -/
def serialize_record (record : Json) (nowSer : DateTime) : Json :=
  Json.obj
    [("data", record),
     ("metadata", Json.obj
        [("ingestion_timestamp", Json.str (isoformat nowSer)),
         ("pipeline_version", Json.str "1.0.0")])]

/-- Outcome of `StreamProcessor.process_record`: the updated processor
state, the returned `ProcessingResult`, and the S3 writes performed. -/
structure StepOut where
  state : StreamProcessor
  result : ProcessingResult
  writes : List S3Write

/-- The decode portion of the `try` block: `record['data']` (KeyError when
absent) then base64-decode + UTF-8-decode + `json.loads`. -/
def decodeStep (env : RecordEnv) (r : IncomingRecord) : Except String Json :=
  match r.data with
  | none => .error keyErrorMsg
  | some d => env.decode d

/-- `StreamProcessor.process_record`, with every exception in the `try`
block caught and turned into a failure result. -/
def process_record (p : StreamProcessor) (env : RecordEnv) (r : IncomingRecord) : StepOut :=
  let record_id := r.sequenceNumber.getD env.uuidFull
  let partition_key := r.partitionKey.getD "unknown"
  match decodeStep env r with
  | .error e =>
    { state := { p with records_failed := p.records_failed + 1 }
      result :=
        { record_id := record_id, success := false, partition_key := partition_key
          error_message := some e, processing_time_ms := env.elapsedMs }
      writes := [] }
  | .ok data =>
    let processed_data := serialize_record data env.nowSer
    let output_path :=
      "s3://" ++ p.bucket_name ++ "/" ++ get_partition_path p env.now ++
      "data_" ++ compactTs env.now ++ "_" ++ env.uuidHex8 ++ ".json"
    match env.s3Result with
    | .error e =>
      { state := { p with records_failed := p.records_failed + 1 }
        result :=
          { record_id := record_id, success := false, partition_key := partition_key
            error_message := some e, processing_time_ms := env.elapsedMs }
        writes := [] }
    | .ok _ =>
      { state := { p with records_processed := p.records_processed + 1 }
        result :=
          { record_id := record_id, success := true, partition_key := partition_key
            output_path := some output_path, processing_time_ms := env.elapsedMs }
        writes :=
          [{ bucket := p.bucket_name
             key := strReplace output_path ("s3://" ++ p.bucket_name ++ "/") ""
             body := processed_data
             contentType := "application/json"
             meta_partition_key := partition_key
             meta_sequence_number := record_id }] }

/-- The dictionary returned by `StreamProcessor.get_summary`; `now` is the
`time.time()` reading taken at the call. -/
structure Summary where
  records_processed : ℕ
  records_failed : ℕ
  success_rate : ℚ
  processing_rate_per_second : ℚ
  elapsed_time_seconds : ℚ

/-- `StreamProcessor.get_summary`. -/
def get_summary (p : StreamProcessor) (now : ℚ) : Summary :=
  let elapsed_time := now - p.start_time
  { records_processed := p.records_processed
    records_failed := p.records_failed
    success_rate :=
      if p.records_processed + p.records_failed > 0 then
        (p.records_processed : ℚ) / ((p.records_processed : ℚ) + (p.records_failed : ℚ)) * 100
      else 100
    processing_rate_per_second :=
      if elapsed_time > 0 then (p.records_processed : ℚ) / elapsed_time else 0
    elapsed_time_seconds := elapsed_time }

/-- One entry of the `results` list built by `lambda_handler`
(`sequenceNumber`, `success`, `error`). -/
structure ResultEntry where
  sequenceNumber : String
  success : Bool
  error : Option String

/-- The per-record report appended by `lambda_handler` for one
`ProcessingResult`. -/
def toEntry (res : ProcessingResult) : ResultEntry :=
  { sequenceNumber := res.record_id, success := res.success, error := res.error_message }

/-- The response dictionary returned by `lambda_handler` (`body` flattened
into named fields). -/
structure Response where
  statusCode : ℕ
  message : String
  recordsProcessed : ℕ
  recordsFailed : ℕ
  results : List ResultEntry

/-- Accumulated outcome of the record loop in `lambda_handler`. -/
structure BatchOut where
  state : StreamProcessor
  entries : List ResultEntry
  writes : List S3Write

/-- Effects consumed by one `lambda_handler` invocation: the
`DATA_BUCKET_NAME` environment variable, a `RecordEnv` for each record
position, and the `time.time()` readings at construction and at
`get_summary`. -/
structure LambdaEnv where
  bucketEnv : Option String
  recordEnvs : ℕ → RecordEnv
  startTime : ℚ
  endTime : ℚ

/-- The `for record in event.get('Records', [])` loop: process each record
in order, collecting report entries and writes.  `i` is the position of the
first record of `rs` in the batch. -/
def processBatch (envs : ℕ → RecordEnv) (p : StreamProcessor) (i : ℕ) :
    List IncomingRecord → BatchOut
  | [] => { state := p, entries := [], writes := [] }
  | r :: rs =>
    let out := process_record p (envs i) r
    let rest := processBatch envs out.state (i + 1) rs
    { state := rest.state
      entries := toEntry out.result :: rest.entries
      writes := out.writes ++ rest.writes }

/-- `lambda_handler`: check `DATA_BUCKET_NAME` (absent or empty is falsy in
Python and raises `ValueError`, modelled as `.error`), build a fresh
`StreamProcessor`, run the record loop, and assemble the response from the
summary.  `event = none` models an event dictionary with no `Records` key;
metric publication is a swallowed side effect with no influence on the
response and is not tracked. -/
def lambda_handler (env : LambdaEnv) (event : Option (List IncomingRecord)) :
    Except String (Response × List S3Write) :=
  match env.bucketEnv with
  | none => .error "DATA_BUCKET_NAME environment variable not set"
  | some bucket_name =>
    if bucket_name = "" then .error "DATA_BUCKET_NAME environment variable not set"
    else
      let processor : StreamProcessor :=
        { bucket_name := bucket_name, pre := "raw/", records_processed := 0
          records_failed := 0, start_time := env.startTime }
      let out := processBatch env.recordEnvs processor 0 (event.getD [])
      let summary := get_summary out.state env.endTime
      .ok
        ({ statusCode := 200
           message := "Batch processing complete"
           recordsProcessed := summary.records_processed
           recordsFailed := summary.records_failed
           results := out.entries }, out.writes)

/-! ## Concrete sample values (used to instantiate theorems on closed inputs) -/

/-- A decoder behaving like base64 + `json.loads` on the two payloads used in
concrete instantiations: the sample payload of the source's `__main__` block
decodes to the object with key "test" and value "data"; anything else raises. -/
def sampleDecode : String → Except String Json := fun s =>
  if s = "eyJ0ZXN0IjoiZGF0YSJ9" then .ok (Json.obj [("test", Json.str "data")])
  else .error "Invalid base64-encoded string"

/-- A sample UTC instant. -/
def sampleTime : DateTime := ⟨2026, 10, 12, 7, 30, 15, 0⟩

/-- A sample per-record effect environment with a successful S3 outcome. -/
def sampleEnv : RecordEnv :=
  { decode := sampleDecode
    nowSer := sampleTime
    now := sampleTime
    uuidFull := "1c9ec315-0b8f-4c55-9a52-0a2e8b6fd7aa"
    uuidHex8 := "0a1b2c3d"
    s3Result := .ok ()
    elapsedMs := 2 }

/-- A second effect environment, drawing different uuid4 values. -/
def sampleEnv2 : RecordEnv :=
  { sampleEnv with
    uuidFull := "7f3d9c01-52aa-4b6e-8d20-55f1c2a94e03"
    uuidHex8 := "7f3d9c01" }

/-- A fresh `StreamProcessor` as `lambda_handler` builds it. -/
def sampleProcessor : StreamProcessor :=
  { bucket_name := "test-bucket", pre := "raw/", records_processed := 0
    records_failed := 0, start_time := 100 }

/-- A record with a decodable payload and no sequence number or partition
key. -/
def goodRecord : IncomingRecord := ⟨none, none, some "eyJ0ZXN0IjoiZGF0YSJ9"⟩

/-- A record whose payload is not valid base64/JSON. -/
def badRecord : IncomingRecord := ⟨some "seq-2", some "k2", some "not base64!"⟩

/-- A record with no `data` key at all. -/
def noDataRecord : IncomingRecord := ⟨some "seq-3", some "k3", none⟩

/-- A sample handler environment with the bucket configured. -/
def sampleLambdaEnv : LambdaEnv :=
  { bucketEnv := some "test-bucket"
    recordEnvs := fun i => if i = 0 then sampleEnv else sampleEnv2
    startTime := 100
    endTime := 101 }

/-- A handler environment with `DATA_BUCKET_NAME` unset. -/
def noBucketEnv : LambdaEnv :=
  { sampleLambdaEnv with bucketEnv := none }

/-! ## Helper lemmas: decimal digit rendering -/

theorem length_padDigits (w n : ℕ) : (padDigits w n).length = w := by
  induction w generalizing n with
  | zero => rfl
  | succ w ih => simp [padDigits, ih]

theorem isDigit_digitChar {d : ℕ} (hd : d < 10) : (digitChar d).isDigit = true := by
  interval_cases d <;> decide

theorem mem_padDigits_isDigit {w n : ℕ} {c : Char} (hc : c ∈ padDigits w n) :
    c.isDigit = true := by
  induction w generalizing n with
  | zero => simp [padDigits] at hc
  | succ w ih =>
    simp only [padDigits, List.mem_append, List.mem_singleton] at hc
    rcases hc with h | h
    · exact ih h
    · exact h ▸ isDigit_digitChar (Nat.mod_lt _ (by norm_num))

theorem toNat_digitChar {d : ℕ} (hd : d < 10) : (digitChar d).toNat - 48 = d := by
  interval_cases d <;> decide

theorem digitsToNat_append_singleton (cs : List Char) (c : Char) :
    digitsToNat (cs ++ [c]) = digitsToNat cs * 10 + (c.toNat - 48) := by
  simp [digitsToNat, List.foldl_append]

theorem digitsToNat_padDigits {w n : ℕ} (h : n < 10 ^ w) :
    digitsToNat (padDigits w n) = n := by
  induction w generalizing n with
  | zero =>
    interval_cases n
    rfl
  | succ w ih =>
    have hdiv : n / 10 < 10 ^ w := by
      rw [Nat.div_lt_iff_lt_mul (by norm_num)]
      calc n < 10 ^ (w + 1) := h
        _ = 10 ^ w * 10 := by ring
    rw [padDigits, digitsToNat_append_singleton, ih hdiv,
      toNat_digitChar (Nat.mod_lt _ (by norm_num))]
    omega

theorem ne_colon_of_isDigit {c : Char} (h : c.isDigit = true) : c ≠ ':' := by
  intro he
  rw [he] at h
  exact absurd h (by decide)

/-! ## Helper lemmas: Python str.replace -/

theorem leadsWith_self_append (p t : List Char) : leadsWith p (p ++ t) = true := by
  induction p with
  | nil => rfl
  | cons a ps ih => simp [leadsWith, ih]

theorem mem_of_leadsWith {p s : List Char} (h : leadsWith p s = true) {c : Char}
    (hc : c ∈ p) : c ∈ s := by
  induction p generalizing s with
  | nil => simp at hc
  | cons a ps ih =>
    cases s with
    | nil => simp [leadsWith] at h
    | cons b ss =>
      simp only [leadsWith, Bool.and_eq_true, beq_iff_eq] at h
      rcases List.mem_cons.mp hc with rfl | hc
      · exact h.1 ▸ List.mem_cons_self _ _
      · exact List.mem_cons_of_mem _ (ih h.2 hc)

theorem hasOcc_eq_false {pat s : List Char} {c0 : Char} (hm : c0 ∈ pat)
    (hs : c0 ∉ s) : hasOcc pat s = false := by
  induction s with
  | nil =>
    cases pat with
    | nil => simp at hm
    | cons a ps => rfl
  | cons c rest ih =>
    simp only [hasOcc, Bool.or_eq_false_iff]
    constructor
    · by_contra hlead
      rw [Bool.not_eq_false] at hlead
      exact hs (mem_of_leadsWith hlead hm)
    · exact ih fun hr => hs (List.mem_cons_of_mem _ hr)

theorem replChars_id {s pat : List Char} (h : hasOcc pat s = false) (repl : List Char) :
    replChars s pat repl = s := by
  induction s with
  | nil => rw [replChars]
  | cons c rest ih =>
    rw [replChars, dif_neg, ih]
    · simp only [hasOcc, Bool.or_eq_false_iff] at h
      exact h.2
    · simp only [hasOcc, Bool.or_eq_false_iff] at h
      rintro ⟨-, hlead⟩
      rw [h.1] at hlead
      exact Bool.false_ne_true hlead

theorem replChars_strip {pat rest : List Char} (hpat : pat ≠ [])
    (h : hasOcc pat rest = false) : replChars (pat ++ rest) pat [] = rest := by
  cases pat with
  | nil => exact absurd rfl hpat
  | cons a ps =>
    rw [List.cons_append, replChars, dif_pos]
    · rw [List.nil_append, ← List.cons_append, List.drop_left]
      exact replChars_id h []
    · exact ⟨hpat, by rw [← List.cons_append]; exact leadsWith_self_append _ _⟩

/-! ## Helper lemmas: process_record case analysis -/

theorem process_record_keyError (p : StreamProcessor) (env : RecordEnv)
    (r : IncomingRecord) (hd : r.data = none) :
    process_record p env r =
      { state := { p with records_failed := p.records_failed + 1 }
        result :=
          { record_id := r.sequenceNumber.getD env.uuidFull, success := false
            partition_key := r.partitionKey.getD "unknown"
            error_message := some keyErrorMsg, processing_time_ms := env.elapsedMs }
        writes := [] } := by
  simp [process_record, decodeStep, hd]

theorem process_record_decodeErr (p : StreamProcessor) (env : RecordEnv)
    (r : IncomingRecord) (d e : String) (hd : r.data = some d)
    (hdec : env.decode d = .error e) :
    process_record p env r =
      { state := { p with records_failed := p.records_failed + 1 }
        result :=
          { record_id := r.sequenceNumber.getD env.uuidFull, success := false
            partition_key := r.partitionKey.getD "unknown"
            error_message := some e, processing_time_ms := env.elapsedMs }
        writes := [] } := by
  simp [process_record, decodeStep, hd, hdec]

theorem process_record_s3Err (p : StreamProcessor) (env : RecordEnv)
    (r : IncomingRecord) (d e : String) (data : Json) (hd : r.data = some d)
    (hdec : env.decode d = .ok data) (hs3 : env.s3Result = .error e) :
    process_record p env r =
      { state := { p with records_failed := p.records_failed + 1 }
        result :=
          { record_id := r.sequenceNumber.getD env.uuidFull, success := false
            partition_key := r.partitionKey.getD "unknown"
            error_message := some e, processing_time_ms := env.elapsedMs }
        writes := [] } := by
  simp [process_record, decodeStep, hd, hdec, hs3]

theorem process_record_success (p : StreamProcessor) (env : RecordEnv)
    (r : IncomingRecord) (d : String) (data : Json) (hd : r.data = some d)
    (hdec : env.decode d = .ok data) (hs3 : env.s3Result = .ok ()) :
    process_record p env r =
      { state := { p with records_processed := p.records_processed + 1 }
        result :=
          { record_id := r.sequenceNumber.getD env.uuidFull, success := true
            partition_key := r.partitionKey.getD "unknown"
            output_path := some ("s3://" ++ p.bucket_name ++ "/" ++
              get_partition_path p env.now ++ "data_" ++ compactTs env.now ++ "_" ++
              env.uuidHex8 ++ ".json")
            processing_time_ms := env.elapsedMs }
        writes :=
          [{ bucket := p.bucket_name
             key := strReplace
               ("s3://" ++ p.bucket_name ++ "/" ++ get_partition_path p env.now ++
                "data_" ++ compactTs env.now ++ "_" ++ env.uuidHex8 ++ ".json")
               ("s3://" ++ p.bucket_name ++ "/") ""
             body := serialize_record data env.nowSer
             contentType := "application/json"
             meta_partition_key := r.partitionKey.getD "unknown"
             meta_sequence_number := r.sequenceNumber.getD env.uuidFull }] } := by
  simp [process_record, decodeStep, hd, hdec, hs3]

theorem pr_record_id (p : StreamProcessor) (env : RecordEnv) (r : IncomingRecord) :
    (process_record p env r).result.record_id = r.sequenceNumber.getD env.uuidFull := by
  rcases hd : r.data with - | d
  · rw [process_record_keyError p env r hd]
  · rcases hdec : env.decode d with e | data
    · rw [process_record_decodeErr p env r d e hd hdec]
    · rcases hs3 : env.s3Result with e | u
      · rw [process_record_s3Err p env r d e data hd hdec hs3]
      · cases u
        rw [process_record_success p env r d data hd hdec hs3]

theorem pr_partition_key (p : StreamProcessor) (env : RecordEnv) (r : IncomingRecord) :
    (process_record p env r).result.partition_key = r.partitionKey.getD "unknown" := by
  rcases hd : r.data with - | d
  · rw [process_record_keyError p env r hd]
  · rcases hdec : env.decode d with e | data
    · rw [process_record_decodeErr p env r d e hd hdec]
    · rcases hs3 : env.s3Result with e | u
      · rw [process_record_s3Err p env r d e data hd hdec hs3]
      · cases u
        rw [process_record_success p env r d data hd hdec hs3]

theorem pr_time (p : StreamProcessor) (env : RecordEnv) (r : IncomingRecord) :
    (process_record p env r).result.processing_time_ms = env.elapsedMs := by
  rcases hd : r.data with - | d
  · rw [process_record_keyError p env r hd]
  · rcases hdec : env.decode d with e | data
    · rw [process_record_decodeErr p env r d e hd hdec]
    · rcases hs3 : env.s3Result with e | u
      · rw [process_record_s3Err p env r d e data hd hdec hs3]
      · cases u
        rw [process_record_success p env r d data hd hdec hs3]

theorem pr_counters (p : StreamProcessor) (env : RecordEnv) (r : IncomingRecord) :
    (process_record p env r).state.records_processed +
      (process_record p env r).state.records_failed =
      p.records_processed + p.records_failed + 1 := by
  rcases hd : r.data with - | d
  · rw [process_record_keyError p env r hd]
    simp
    omega
  · rcases hdec : env.decode d with e | data
    · rw [process_record_decodeErr p env r d e hd hdec]
      simp
      omega
    · rcases hs3 : env.s3Result with e | u
      · rw [process_record_s3Err p env r d e data hd hdec hs3]
        simp
        omega
      · cases u
        rw [process_record_success p env r d data hd hdec hs3]
        simp
        omega

theorem pr_entry_state_free (p q : StreamProcessor) (env : RecordEnv)
    (r : IncomingRecord) :
    toEntry (process_record p env r).result = toEntry (process_record q env r).result := by
  rcases hd : r.data with - | d
  · rw [process_record_keyError p env r hd, process_record_keyError q env r hd]
  · rcases hdec : env.decode d with e | data
    · rw [process_record_decodeErr p env r d e hd hdec,
        process_record_decodeErr q env r d e hd hdec]
    · rcases hs3 : env.s3Result with e | u
      · rw [process_record_s3Err p env r d e data hd hdec hs3,
          process_record_s3Err q env r d e data hd hdec hs3]
      · cases u
        rw [process_record_success p env r d data hd hdec hs3,
          process_record_success q env r d data hd hdec hs3]
        simp [toEntry]

/-! ## Helper lemmas: the record loop -/

theorem processBatch_counters (envs : ℕ → RecordEnv) :
    ∀ (rs : List IncomingRecord) (p : StreamProcessor) (i : ℕ),
    (processBatch envs p i rs).state.records_processed +
      (processBatch envs p i rs).state.records_failed =
      p.records_processed + p.records_failed + rs.length := by
  intro rs
  induction rs with
  | nil => intro p i; simp [processBatch]
  | cons r rs ih =>
    intro p i
    have step := pr_counters p (envs i) r
    have := ih (process_record p (envs i) r).state (i + 1)
    simp only [processBatch, List.length_cons]
    omega

theorem processBatch_length (envs : ℕ → RecordEnv) :
    ∀ (rs : List IncomingRecord) (p : StreamProcessor) (i : ℕ),
    (processBatch envs p i rs).entries.length = rs.length := by
  intro rs
  induction rs with
  | nil => intro p i; simp [processBatch]
  | cons r rs ih =>
    intro p i
    simp only [processBatch, List.length_cons]
    rw [ih]

theorem processBatch_get (envs : ℕ → RecordEnv) :
    ∀ (rs : List IncomingRecord) (p q : StreamProcessor) (i j : ℕ)
      (hj : j < rs.length) (hj2 : j < (processBatch envs p i rs).entries.length),
    (processBatch envs p i rs).entries.get ⟨j, hj2⟩ =
      toEntry (process_record q (envs (i + j)) (rs.get ⟨j, hj⟩)).result := by
  intro rs
  induction rs with
  | nil => intro p q i j hj; exact absurd hj (by simp)
  | cons r rs ih =>
    intro p q i j hj hj2
    cases j with
    | zero =>
      simp only [processBatch, List.get_cons_zero, Nat.add_zero]
      exact pr_entry_state_free p q (envs i) r
    | succ j =>
      have hj' : j < rs.length := by simpa using hj
      have hj2' : j < (processBatch envs (process_record p (envs i) r).state (i + 1) rs).entries.length := by
        rw [processBatch_length]; exact hj'
      have key := ih (process_record p (envs i) r).state q (i + 1) j hj' hj2'
      have harith : i + 1 + j = i + (j + 1) := by omega
      simp only [processBatch, List.get_cons_succ]
      rw [key, harith]

/-! ## Claim theorems -/

/-- Claim C2: a record whose payload fails base64-decoding or JSON-parsing
yields a failure result with `success = false`, the record's identifier and
partition key, a non-empty error description, and the elapsed time; no S3
write is performed for it, and the exception is captured and returned as
data (the embedding is a total function into `StepOut`), never propagated to
the caller. -/
theorem claim_C2_undecodable_payload_local_failure
    (p : StreamProcessor) (env : RecordEnv) (r : IncomingRecord) (d e : String)
    (hd : r.data = some d) (hdec : env.decode d = .error e) (hne : e ≠ "") :
    (process_record p env r).result.success = false ∧
    (process_record p env r).result.record_id = r.sequenceNumber.getD env.uuidFull ∧
    (process_record p env r).result.partition_key = r.partitionKey.getD "unknown" ∧
    (process_record p env r).result.error_message = some e ∧ e ≠ "" ∧
    (process_record p env r).result.processing_time_ms = env.elapsedMs ∧
    (process_record p env r).writes = [] := by
  rw [process_record_decodeErr p env r d e hd hdec]
  exact ⟨rfl, rfl, rfl, rfl, hne, rfl, rfl⟩

/-- Closed instantiation of claim C2 on a concrete undecodable record. -/
theorem claim_C2_witness :
    (process_record sampleProcessor sampleEnv badRecord).result.success = false ∧
    (process_record sampleProcessor sampleEnv badRecord).result.record_id =
      badRecord.sequenceNumber.getD sampleEnv.uuidFull ∧
    (process_record sampleProcessor sampleEnv badRecord).result.partition_key =
      badRecord.partitionKey.getD "unknown" ∧
    (process_record sampleProcessor sampleEnv badRecord).result.error_message =
      some "Invalid base64-encoded string" ∧
    "Invalid base64-encoded string" ≠ "" ∧
    (process_record sampleProcessor sampleEnv badRecord).result.processing_time_ms =
      sampleEnv.elapsedMs ∧
    (process_record sampleProcessor sampleEnv badRecord).writes = [] :=
  claim_C2_undecodable_payload_local_failure sampleProcessor sampleEnv badRecord
    "not base64!" "Invalid base64-encoded string" rfl rfl (by decide)

/-- Claim C10: a record lacking the `data` field entirely is a per-record
recoverable failure: the key lookup error is caught inside `process_record`
and converted into a failure result with `success = false`; no write happens
and the failed counter advances, so the batch handler sees a normal result,
not an exception. -/
theorem claim_C10_missing_data_key_local_failure
    (p : StreamProcessor) (env : RecordEnv) (r : IncomingRecord)
    (hd : r.data = none) :
    (process_record p env r).result.success = false ∧
    (process_record p env r).result.error_message = some keyErrorMsg ∧
    (process_record p env r).result.record_id = r.sequenceNumber.getD env.uuidFull ∧
    (process_record p env r).writes = [] ∧
    (process_record p env r).state.records_failed = p.records_failed + 1 ∧
    (process_record p env r).state.records_processed = p.records_processed := by
  rw [process_record_keyError p env r hd]
  exact ⟨rfl, rfl, rfl, rfl, rfl, rfl⟩

/-- Closed instantiation of claim C10 on a record with no `data` key. -/
theorem claim_C10_witness :
    (process_record sampleProcessor sampleEnv noDataRecord).result.success = false ∧
    (process_record sampleProcessor sampleEnv noDataRecord).result.error_message =
      some keyErrorMsg ∧
    (process_record sampleProcessor sampleEnv noDataRecord).result.record_id =
      noDataRecord.sequenceNumber.getD sampleEnv.uuidFull ∧
    (process_record sampleProcessor sampleEnv noDataRecord).writes = [] ∧
    (process_record sampleProcessor sampleEnv noDataRecord).state.records_failed =
      sampleProcessor.records_failed + 1 ∧
    (process_record sampleProcessor sampleEnv noDataRecord).state.records_processed =
      sampleProcessor.records_processed :=
  claim_C10_missing_data_key_local_failure sampleProcessor sampleEnv noDataRecord rfl

/-- Claim C8: every `ProcessingResult` has its output location present iff
`success` is true and its error description present iff `success` is false,
and always carries the record identifier, the partition key, and the elapsed
duration in milliseconds. -/
theorem claim_C8_result_shape_invariant
    (p : StreamProcessor) (env : RecordEnv) (r : IncomingRecord) :
    ((process_record p env r).result.output_path ≠ none ↔
      (process_record p env r).result.success = true) ∧
    ((process_record p env r).result.error_message ≠ none ↔
      (process_record p env r).result.success = false) ∧
    (process_record p env r).result.record_id = r.sequenceNumber.getD env.uuidFull ∧
    (process_record p env r).result.partition_key = r.partitionKey.getD "unknown" ∧
    (process_record p env r).result.processing_time_ms = env.elapsedMs := by
  rcases hd : r.data with - | d
  · rw [process_record_keyError p env r hd]
    simp
  · rcases hdec : env.decode d with e | data
    · rw [process_record_decodeErr p env r d e hd hdec]
      simp
    · rcases hs3 : env.s3Result with e | u
      · rw [process_record_s3Err p env r d e data hd hdec hs3]
        simp
      · cases u
        rw [process_record_success p env r d data hd hdec hs3]
        simp

/-- Claim C7: a record with no sequence identifier still gets a non-empty,
freshly generated identifier (distinct from the one drawn for another such
record), and a record with no partition key gets the sentinel "unknown". -/
theorem claim_C7_missing_identity_defaults
    (p1 p2 : StreamProcessor) (env1 env2 : RecordEnv) (r1 r2 : IncomingRecord)
    (h1 : r1.sequenceNumber = none) (h2 : r2.sequenceNumber = none)
    (hne : env1.uuidFull ≠ "") (hdist : env1.uuidFull ≠ env2.uuidFull)
    (hpk : r1.partitionKey = none) :
    (process_record p1 env1 r1).result.record_id = env1.uuidFull ∧
    (process_record p1 env1 r1).result.record_id ≠ "" ∧
    (process_record p1 env1 r1).result.record_id ≠
      (process_record p2 env2 r2).result.record_id ∧
    (process_record p1 env1 r1).result.partition_key = "unknown" := by
  have e1 : (process_record p1 env1 r1).result.record_id = env1.uuidFull := by
    rw [pr_record_id, h1]
    rfl
  have e2 : (process_record p2 env2 r2).result.record_id = env2.uuidFull := by
    rw [pr_record_id, h2]
    rfl
  have e3 : (process_record p1 env1 r1).result.partition_key = "unknown" := by
    rw [pr_partition_key, hpk]
    rfl
  exact ⟨e1, by rw [e1]; exact hne, by rw [e1, e2]; exact hdist, e3⟩

/-- Closed instantiation of claim C7 on two records with no sequence number
or partition key, processed with two distinct uuid4 draws. -/
theorem claim_C7_witness :
    (process_record sampleProcessor sampleEnv goodRecord).result.record_id =
      sampleEnv.uuidFull ∧
    (process_record sampleProcessor sampleEnv goodRecord).result.record_id ≠ "" ∧
    (process_record sampleProcessor sampleEnv goodRecord).result.record_id ≠
      (process_record sampleProcessor sampleEnv2 goodRecord).result.record_id ∧
    (process_record sampleProcessor sampleEnv goodRecord).result.partition_key =
      "unknown" :=
  claim_C7_missing_identity_defaults sampleProcessor sampleProcessor sampleEnv
    sampleEnv2 goodRecord goodRecord rfl rfl (by decide) (by decide) rfl

/-- Claim C5: `get_summary` is total; on zero handled records the success
rate is 100 rather than a division error, and on non-positive elapsed time
the processing rate is 0 rather than a division by zero. -/
theorem claim_C5_get_summary_total (p : StreamProcessor) (now : ℚ) :
    (p.records_processed + p.records_failed = 0 →
      (get_summary p now).success_rate = 100) ∧
    (now - p.start_time ≤ 0 →
      (get_summary p now).processing_rate_per_second = 0) := by
  constructor
  · intro h
    have h0 : ¬ (p.records_processed + p.records_failed > 0) := by omega
    simp [get_summary, h0]
  · intro h
    have h0 : ¬ (now - p.start_time > 0) := not_lt.mpr h
    simp [get_summary, h0]

/-- Closed instantiation of claim C5 on a fresh processor queried at its own
start time. -/
theorem claim_C5_witness :
    (get_summary sampleProcessor 100).success_rate = 100 ∧
    (get_summary sampleProcessor 100).processing_rate_per_second = 0 :=
  ⟨(claim_C5_get_summary_total sampleProcessor 100).1 rfl,
   (claim_C5_get_summary_total sampleProcessor 100).2 (by norm_num [sampleProcessor])⟩

/-- Claim C6: when `DATA_BUCKET_NAME` is absent (or empty, which is equally
falsy in Python), `lambda_handler` raises the configuration error before any
record is touched: the invocation yields no response, no per-record result
and no write, for every event. -/
theorem claim_C6_missing_bucket_is_fatal (env : LambdaEnv)
    (h : env.bucketEnv = none ∨ env.bucketEnv = some "") :
    ∀ event : Option (List IncomingRecord),
      lambda_handler env event =
        .error "DATA_BUCKET_NAME environment variable not set" := by
  intro event
  rcases h with h | h <;> simp [lambda_handler, h]

/-- Closed instantiation of claim C6 with the bucket variable unset and a
non-empty batch. -/
theorem claim_C6_witness :
    lambda_handler noBucketEnv (some [goodRecord, badRecord]) =
      .error "DATA_BUCKET_NAME environment variable not set" :=
  claim_C6_missing_bucket_is_fatal noBucketEnv (Or.inl rfl) (some [goodRecord, badRecord])

/-- Claim C9: an event with no `Records` key is handled as an empty batch:
the handler does not raise and returns status code 200 with zero processed,
zero failed, and an empty results list (and performs no write). -/
theorem claim_C9_no_records_key_empty_batch (env : LambdaEnv) (b : String)
    (hb : env.bucketEnv = some b) (hne : b ≠ "") :
    lambda_handler env none =
      .ok ({ statusCode := 200, message := "Batch processing complete",
             recordsProcessed := 0, recordsFailed := 0, results := [] }, []) := by
  simp [lambda_handler, hb, hne, processBatch, get_summary]

/-- Closed instantiation of claim C9 on a configured environment. -/
theorem claim_C9_witness :
    lambda_handler sampleLambdaEnv none =
      .ok ({ statusCode := 200, message := "Batch processing complete",
             recordsProcessed := 0, recordsFailed := 0, results := [] }, []) :=
  claim_C9_no_records_key_empty_batch sampleLambdaEnv "test-bucket" rfl (by decide)

/-- Claim C1: for a batch of N records the handler returns a response whose
results list has exactly N entries, one per input record in the original
order (the j-th entry is the report of the j-th record), with
`recordsProcessed + recordsFailed = N`; and after the first k records the
processor counters sum to k. -/
theorem claim_C1_batch_accounting (env : LambdaEnv) (records : List IncomingRecord)
    (b : String) (hb : env.bucketEnv = some b) (hne : b ≠ "") :
    ∃ (resp : Response) (ws : List S3Write),
      lambda_handler env (some records) = .ok (resp, ws) ∧
      resp.results.length = records.length ∧
      resp.recordsProcessed + resp.recordsFailed = records.length ∧
      (∀ (j : ℕ) (hj : j < records.length) (hj2 : j < resp.results.length),
        resp.results.get ⟨j, hj2⟩ =
          toEntry (process_record
            { bucket_name := b, pre := "raw/", records_processed := 0,
              records_failed := 0, start_time := env.startTime }
            (env.recordEnvs j) (records.get ⟨j, hj⟩)).result) ∧
      (∀ k : ℕ, k ≤ records.length →
        (processBatch env.recordEnvs
            { bucket_name := b, pre := "raw/", records_processed := 0,
              records_failed := 0, start_time := env.startTime } 0
            (records.take k)).state.records_processed +
          (processBatch env.recordEnvs
            { bucket_name := b, pre := "raw/", records_processed := 0,
              records_failed := 0, start_time := env.startTime } 0
            (records.take k)).state.records_failed = k) := by
  refine
    ⟨{ statusCode := 200
       message := "Batch processing complete"
       recordsProcessed :=
         (processBatch env.recordEnvs
           { bucket_name := b, pre := "raw/", records_processed := 0,
             records_failed := 0, start_time := env.startTime } 0 records).state.records_processed
       recordsFailed :=
         (processBatch env.recordEnvs
           { bucket_name := b, pre := "raw/", records_processed := 0,
             records_failed := 0, start_time := env.startTime } 0 records).state.records_failed
       results :=
         (processBatch env.recordEnvs
           { bucket_name := b, pre := "raw/", records_processed := 0,
             records_failed := 0, start_time := env.startTime } 0 records).entries },
     (processBatch env.recordEnvs
       { bucket_name := b, pre := "raw/", records_processed := 0,
         records_failed := 0, start_time := env.startTime } 0 records).writes,
     ?_, ?_, ?_, ?_, ?_⟩
  · simp [lambda_handler, hb, hne, get_summary]
  · exact processBatch_length env.recordEnvs records _ 0
  · have := processBatch_counters env.recordEnvs records
      { bucket_name := b, pre := "raw/", records_processed := 0,
        records_failed := 0, start_time := env.startTime } 0
    simpa using this
  · intro j hj hj2
    have := processBatch_get env.recordEnvs records
      { bucket_name := b, pre := "raw/", records_processed := 0,
        records_failed := 0, start_time := env.startTime }
      { bucket_name := b, pre := "raw/", records_processed := 0,
        records_failed := 0, start_time := env.startTime } 0 j hj hj2
    simpa using this
  · intro k hk
    have := processBatch_counters env.recordEnvs (records.take k)
      { bucket_name := b, pre := "raw/", records_processed := 0,
        records_failed := 0, start_time := env.startTime } 0
    simp [List.length_take] at this
    omega

/-- Closed instantiation of claim C1 on a two-record batch (one decodable
record, one undecodable record). -/
theorem claim_C1_witness :
    ∃ (resp : Response) (ws : List S3Write),
      lambda_handler sampleLambdaEnv (some [goodRecord, badRecord]) = .ok (resp, ws) ∧
      resp.results.length = [goodRecord, badRecord].length ∧
      resp.recordsProcessed + resp.recordsFailed = [goodRecord, badRecord].length ∧
      (∀ (j : ℕ) (hj : j < [goodRecord, badRecord].length) (hj2 : j < resp.results.length),
        resp.results.get ⟨j, hj2⟩ =
          toEntry (process_record
            { bucket_name := "test-bucket", pre := "raw/", records_processed := 0,
              records_failed := 0, start_time := sampleLambdaEnv.startTime }
            (sampleLambdaEnv.recordEnvs j) ([goodRecord, badRecord].get ⟨j, hj⟩)).result) ∧
      (∀ k : ℕ, k ≤ [goodRecord, badRecord].length →
        (processBatch sampleLambdaEnv.recordEnvs
            { bucket_name := "test-bucket", pre := "raw/", records_processed := 0,
              records_failed := 0, start_time := sampleLambdaEnv.startTime } 0
            ([goodRecord, badRecord].take k)).state.records_processed +
          (processBatch sampleLambdaEnv.recordEnvs
            { bucket_name := "test-bucket", pre := "raw/", records_processed := 0,
              records_failed := 0, start_time := sampleLambdaEnv.startTime } 0
            ([goodRecord, badRecord].take k)).state.records_failed = k) :=
  claim_C1_batch_accounting sampleLambdaEnv [goodRecord, badRecord] "test-bucket"
    rfl (by decide)

/-- Claim C3: the partition path is deterministic in the timestamp and is
exactly `<prefix>year=YYYY/month=MM/day=DD/hour=HH/` where YYYY is the
4-digit zero-padded year and MM, DD, HH are the 2-digit zero-padded month,
day and hour of the given UTC timestamp (bounds are the `datetime` type
invariants). -/
theorem claim_C3_partition_path_format (p : StreamProcessor) (t : DateTime)
    (hy1 : 1 ≤ t.year) (hy : t.year ≤ 9999) (hm1 : 1 ≤ t.month) (hm : t.month ≤ 12)
    (hd1 : 1 ≤ t.day) (hd : t.day ≤ 31) (hh : t.hour ≤ 23) :
    (∀ t' : DateTime, t' = t → get_partition_path p t' = get_partition_path p t) ∧
    ∃ sy sm sd sh : String,
      get_partition_path p t =
        p.pre ++ "year=" ++ sy ++ "/month=" ++ sm ++ "/day=" ++ sd ++
          "/hour=" ++ sh ++ "/" ∧
      sy.length = 4 ∧ sm.length = 2 ∧ sd.length = 2 ∧ sh.length = 2 ∧
      (∀ c ∈ sy.data, c.isDigit = true) ∧ (∀ c ∈ sm.data, c.isDigit = true) ∧
      (∀ c ∈ sd.data, c.isDigit = true) ∧ (∀ c ∈ sh.data, c.isDigit = true) ∧
      digitsToNat sy.data = t.year ∧ digitsToNat sm.data = t.month ∧
      digitsToNat sd.data = t.day ∧ digitsToNat sh.data = t.hour := by
  refine ⟨fun t' ht => by rw [ht],
    decStr 4 t.year, decStr 2 t.month, decStr 2 t.day, decStr 2 t.hour,
    ?_, ?_, ?_, ?_, ?_, ?_, ?_, ?_, ?_, ?_, ?_, ?_, ?_⟩
  · apply String.ext
    simp [get_partition_path, String.data_append]
  · rw [decStr, String.length_mk, length_padDigits]
  · rw [decStr, String.length_mk, length_padDigits]
  · rw [decStr, String.length_mk, length_padDigits]
  · rw [decStr, String.length_mk, length_padDigits]
  · exact fun c hc => mem_padDigits_isDigit hc
  · exact fun c hc => mem_padDigits_isDigit hc
  · exact fun c hc => mem_padDigits_isDigit hc
  · exact fun c hc => mem_padDigits_isDigit hc
  · exact digitsToNat_padDigits (by norm_num; omega)
  · exact digitsToNat_padDigits (by norm_num; omega)
  · exact digitsToNat_padDigits (by norm_num; omega)
  · exact digitsToNat_padDigits (by norm_num; omega)

/-- Closed instantiation of claim C3 on a concrete timestamp. -/
theorem claim_C3_witness :
    (∀ t' : DateTime, t' = sampleTime →
      get_partition_path sampleProcessor t' = get_partition_path sampleProcessor sampleTime) ∧
    ∃ sy sm sd sh : String,
      get_partition_path sampleProcessor sampleTime =
        sampleProcessor.pre ++ "year=" ++ sy ++ "/month=" ++ sm ++ "/day=" ++ sd ++
          "/hour=" ++ sh ++ "/" ∧
      sy.length = 4 ∧ sm.length = 2 ∧ sd.length = 2 ∧ sh.length = 2 ∧
      (∀ c ∈ sy.data, c.isDigit = true) ∧ (∀ c ∈ sm.data, c.isDigit = true) ∧
      (∀ c ∈ sd.data, c.isDigit = true) ∧ (∀ c ∈ sh.data, c.isDigit = true) ∧
      digitsToNat sy.data = sampleTime.year ∧ digitsToNat sm.data = sampleTime.month ∧
      digitsToNat sd.data = sampleTime.day ∧ digitsToNat sh.data = sampleTime.hour :=
  claim_C3_partition_path_format sampleProcessor sampleTime (by decide) (by decide)
    (by decide) (by decide) (by decide) (by decide) (by decide)

/-! ## Helper lemmas: the stored object key -/

theorem not_mem_append_chars {c : Char} {l1 l2 : List Char}
    (h1 : c ∉ l1) (h2 : c ∉ l2) : c ∉ l1 ++ l2 := by
  intro h
  rcases List.mem_append.mp h with h | h
  · exact h1 h
  · exact h2 h

theorem notColon_append {a b : String} (ha : ':' ∉ a.data) (hb : ':' ∉ b.data) :
    ':' ∉ (a ++ b).data := by
  rw [String.data_append]
  exact not_mem_append_chars ha hb

theorem notColon_decStr (w n : ℕ) : ':' ∉ (decStr w n).data := by
  intro h
  exact ne_colon_of_isDigit (mem_padDigits_isDigit h) rfl

theorem notColon_partition_path (p : StreamProcessor) (t : DateTime)
    (hpre : ':' ∉ p.pre.data) : ':' ∉ (get_partition_path p t).data := by
  unfold get_partition_path
  exact notColon_append (notColon_append (notColon_append (notColon_append hpre
    (notColon_append (notColon_append (by decide) (notColon_decStr 4 t.year)) (by decide)))
    (notColon_append (notColon_append (by decide) (notColon_decStr 2 t.month)) (by decide)))
    (notColon_append (notColon_append (by decide) (notColon_decStr 2 t.day)) (by decide)))
    (notColon_append (notColon_append (by decide) (notColon_decStr 2 t.hour)) (by decide))

theorem notColon_compactTs (t : DateTime) : ':' ∉ (compactTs t).data := by
  unfold compactTs
  exact notColon_append (notColon_append (notColon_append (notColon_append
    (notColon_append (notColon_append (notColon_decStr 4 t.year)
      (notColon_decStr 2 t.month)) (notColon_decStr 2 t.day)) (by decide))
    (notColon_decStr 2 t.hour)) (notColon_decStr 2 t.minute)) (notColon_decStr 2 t.second)

theorem strReplace_strip_scheme (B rest : String) (hc : ':' ∉ rest.data) :
    strReplace ("s3://" ++ B ++ "/" ++ rest) ("s3://" ++ B ++ "/") "" = rest := by
  have hpatmem : ':' ∈ ("s3://" ++ B ++ "/").data := by
    rw [String.data_append, String.data_append]
    exact List.mem_append_left _ (List.mem_append_left _ (by decide))
  have hpatne : ("s3://" ++ B ++ "/").data ≠ [] := List.ne_nil_of_mem hpatmem
  apply String.ext
  show replChars ("s3://" ++ B ++ "/" ++ rest).data ("s3://" ++ B ++ "/").data
    (String.data "") = rest.data
  rw [show String.data "" = [] from rfl,
    String.data_append ("s3://" ++ B ++ "/") rest]
  exact replChars_strip hpatne (hasOcc_eq_false hpatmem hc)

/-- Claim C4: a successfully processed record performs exactly one S3 write,
whose key is `<prefix>year=YYYY/month=MM/day=DD/hour=HH/data_<YYYYMMDD_HHMMSS>_<hex8>.json`
(the hex8 suffix being the 8 lowercase-hex characters drawn from uuid4),
whose body is the JSON envelope with the decoded payload under "data" and a
metadata object carrying the ISO-8601 ingestion timestamp and pipeline
version "1.0.0", and whose object metadata holds the record's partition key
and sequence identifier. -/
theorem claim_C4_stored_object_shape
    (p : StreamProcessor) (env : RecordEnv) (r : IncomingRecord)
    (d : String) (data : Json)
    (hd : r.data = some d) (hdec : env.decode d = .ok data)
    (hs3 : env.s3Result = .ok ())
    (hpre : ':' ∉ p.pre.data)
    (hlen : env.uuidHex8.length = 8)
    (hhex : ∀ c ∈ env.uuidHex8.data, isHexLower c = true) :
    (process_record p env r).writes =
      [{ bucket := p.bucket_name
         key := p.pre ++ "year=" ++ decStr 4 env.now.year ++ "/month=" ++
           decStr 2 env.now.month ++ "/day=" ++ decStr 2 env.now.day ++ "/hour=" ++
           decStr 2 env.now.hour ++ "/" ++ "data_" ++ decStr 4 env.now.year ++
           decStr 2 env.now.month ++ decStr 2 env.now.day ++ "_" ++
           decStr 2 env.now.hour ++ decStr 2 env.now.minute ++
           decStr 2 env.now.second ++ "_" ++ env.uuidHex8 ++ ".json"
         body := Json.obj
           [("data", data),
            ("metadata", Json.obj
               [("ingestion_timestamp", Json.str (isoformat env.nowSer)),
                ("pipeline_version", Json.str "1.0.0")])]
         contentType := "application/json"
         meta_partition_key := r.partitionKey.getD "unknown"
         meta_sequence_number := r.sequenceNumber.getD env.uuidFull }] ∧
    env.uuidHex8.length = 8 ∧
    (∀ c ∈ env.uuidHex8.data, isHexLower c = true) := by
  have hhexcolon : ':' ∉ env.uuidHex8.data := by
    intro h
    have := hhex _ h
    exact absurd this (by decide)
  have hrest : ':' ∉ (get_partition_path p env.now ++ "data_" ++ compactTs env.now ++
      "_" ++ env.uuidHex8 ++ ".json").data :=
    notColon_append (notColon_append (notColon_append (notColon_append
      (notColon_append (notColon_partition_path p env.now hpre) (by decide))
      (notColon_compactTs env.now)) (by decide)) hhexcolon) (by decide)
  have hassoc : ("s3://" ++ p.bucket_name ++ "/" ++ get_partition_path p env.now ++
      "data_" ++ compactTs env.now ++ "_" ++ env.uuidHex8 ++ ".json" : String) =
      "s3://" ++ p.bucket_name ++ "/" ++ (get_partition_path p env.now ++ "data_" ++
        compactTs env.now ++ "_" ++ env.uuidHex8 ++ ".json") := by
    apply String.ext
    simp [String.data_append]
  have hkey := strReplace_strip_scheme p.bucket_name
    (get_partition_path p env.now ++ "data_" ++ compactTs env.now ++ "_" ++
      env.uuidHex8 ++ ".json") hrest
  have hflat : get_partition_path p env.now ++ "data_" ++ compactTs env.now ++ "_" ++
      env.uuidHex8 ++ ".json" =
      p.pre ++ "year=" ++ decStr 4 env.now.year ++ "/month=" ++
        decStr 2 env.now.month ++ "/day=" ++ decStr 2 env.now.day ++ "/hour=" ++
        decStr 2 env.now.hour ++ "/" ++ "data_" ++ decStr 4 env.now.year ++
        decStr 2 env.now.month ++ decStr 2 env.now.day ++ "_" ++
        decStr 2 env.now.hour ++ decStr 2 env.now.minute ++
        decStr 2 env.now.second ++ "_" ++ env.uuidHex8 ++ ".json" := by
    apply String.ext
    simp [get_partition_path, compactTs, String.data_append]
  refine ⟨?_, hlen, hhex⟩
  rw [process_record_success p env r d data hd hdec hs3]
  simp only [serialize_record]
  rw [hassoc, hkey, hflat]

/-- Closed instantiation of claim C4 on a concrete decodable record. -/
theorem claim_C4_witness :
    (process_record sampleProcessor sampleEnv goodRecord).writes =
      [{ bucket := sampleProcessor.bucket_name
         key := sampleProcessor.pre ++ "year=" ++ decStr 4 sampleEnv.now.year ++
           "/month=" ++ decStr 2 sampleEnv.now.month ++ "/day=" ++
           decStr 2 sampleEnv.now.day ++ "/hour=" ++ decStr 2 sampleEnv.now.hour ++
           "/" ++ "data_" ++ decStr 4 sampleEnv.now.year ++
           decStr 2 sampleEnv.now.month ++ decStr 2 sampleEnv.now.day ++ "_" ++
           decStr 2 sampleEnv.now.hour ++ decStr 2 sampleEnv.now.minute ++
           decStr 2 sampleEnv.now.second ++ "_" ++ sampleEnv.uuidHex8 ++ ".json"
         body := Json.obj
           [("data", Json.obj [("test", Json.str "data")]),
            ("metadata", Json.obj
               [("ingestion_timestamp", Json.str (isoformat sampleEnv.nowSer)),
                ("pipeline_version", Json.str "1.0.0")])]
         contentType := "application/json"
         meta_partition_key := goodRecord.partitionKey.getD "unknown"
         meta_sequence_number := goodRecord.sequenceNumber.getD sampleEnv.uuidFull }] ∧
    sampleEnv.uuidHex8.length = 8 ∧
    (∀ c ∈ sampleEnv.uuidHex8.data, isHexLower c = true) :=
  claim_C4_stored_object_shape sampleProcessor sampleEnv goodRecord
    "eyJ0ZXN0IjoiZGF0YSJ9" (Json.obj [("test", Json.str "data")])
    rfl rfl rfl (by decide) (by decide) (by decide)
